import Mathlib

/-!
Verification of the e-mart supply-network API against its specification.

The development shallowly embeds the repository's data model (NetworkNode,
Product), the hierarchy-level traversal, the JWT lifetime configuration from
config/settings.py, and the request-handling layer (authentication gate,
debt write protection, country filtering, creation and deletion) as
executable Lean definitions, and proves the specified properties about them.
-/

/-- Node categories of the supply network: FACTORY, RETAIL, ENTREPRENEUR. -/
inductive NodeType where
  | FACTORY
  | RETAIL
  | ENTREPRENEUR
deriving DecidableEq

/-- Modelled from the spec: the Russian display name of a node category used by
the missing models.py string representation; the exact strings are fixed by
network_nodes/tests.py test_str_representation. -/
def NodeType.display : NodeType → String
  | .FACTORY => "Завод"
  | .RETAIL => "Розничная сеть"
  | .ENTREPRENEUR => "Индивидуальный предприниматель"

/-- A persisted NetworkNode row. The monetary debt field is held in cents
(a non-negative decimal with two places), and supplier is an optional
foreign key given by node id. -/
structure NetworkNode where
  id : Nat
  name : String
  email : String
  country : String
  city : String
  street : String
  building_number : String
  type : NodeType
  supplier : Option Nat
  debt : Nat
deriving DecidableEq

/-- A database of NetworkNode rows. -/
abbrev DB := List NetworkNode

/-- Look up a node by its id. -/
def findNode (db : DB) (nid : Nat) : Option NetworkNode :=
  db.find? (fun n => n.id == nid)

/-- One upward hop along the supplier reference: from a node to the row of
its supplier, or none at a root node (or a dangling reference). -/
def chainStep (db : DB) : Option NetworkNode → Option NetworkNode
  | none => none
  | some n =>
    match n.supplier with
    | none => none
    | some sid => findNode db sid

/-- Iterate the supplier hop k times. -/
def chainIter (db : DB) : Nat → Option NetworkNode → Option NetworkNode
  | 0, o => o
  | k+1, o => chainStep db (chainIter db k o)

/-- The id of the node reached after i supplier hops from n, if any. -/
def chainId (db : DB) (n : NetworkNode) (i : Nat) : Option Nat :=
  (chainIter db i (some n)).map (fun m => m.id)

/-- Modelled from the spec: the upward traversal of the missing models.py
get_hierarchy_level, made total with explicit fuel; none models a traversal
that does not finish within the given number of hops. -/
def hierarchyLevelFuel (db : DB) : Nat → NetworkNode → Option Nat
  | 0, _ => none
  | fuel+1, n =>
    match n.supplier with
    | none => some 0
    | some sid =>
      match findNode db sid with
      | none => none
      | some s => (hierarchyLevelFuel db fuel s).map (fun l => l + 1)

/-- Modelled from the spec: hierarchy level of a node, the count of supplier
hops to the root. A chain inside an acyclic database of size d reaches its
root within d hops, so fuel d + 1 decides every terminating traversal. -/
def NetworkNode.get_hierarchy_level (db : DB) (n : NetworkNode) : Option Nat :=
  hierarchyLevelFuel db (db.length + 1) n

/-- Foreign-key soundness of one row: its supplier id, when present, resolves
in the database. -/
def nodeFKOk (db : DB) (n : NetworkNode) : Bool :=
  match n.supplier with
  | none => true
  | some sid => (findNode db sid).isSome

/-- A database is well formed when every stored supplier reference resolves. -/
def WellFormed (db : DB) : Prop := ∀ n ∈ db, nodeFKOk db n = true

/-- The supplier chain from n is acyclic: within the first length-many hops it
never revisits a node id. This bounded form is decidable and suffices, by
pigeonhole, for the chain to die out within length hops. -/
def AcyclicChain (db : DB) (n : NetworkNode) : Prop :=
  ∀ i, i ≤ db.length → ∀ j, j ≤ db.length →
    chainId db n i = chainId db n j → chainId db n i ≠ none → i = j

instance (db : DB) : Decidable (WellFormed db) := by
  unfold WellFormed
  exact List.decidableBAll _ _

instance (db : DB) (n : NetworkNode) : Decidable (AcyclicChain db n) := by
  unfold AcyclicChain
  infer_instance

/-- Modelled from the spec: string representation of a node from the missing
models.py, embedding the computed hierarchy level; the shape is fixed by
network_nodes/tests.py test_str_representation. -/
def NetworkNode.strRepr (db : DB) (n : NetworkNode) : Option String :=
  (NetworkNode.get_hierarchy_level db n).map
    (fun l => n.name ++ " (" ++ n.type.display ++ ", Уровень: " ++ toString l ++ ")")

/-- ACCESS_TOKEN_LIFETIME from config/settings.py, timedelta of 10 minutes,
in seconds. -/
def ACCESS_TOKEN_LIFETIME_SECONDS : Nat := 10 * 60

/-- REFRESH_TOKEN_LIFETIME from config/settings.py, timedelta of 1 day,
in seconds. -/
def REFRESH_TOKEN_LIFETIME_SECONDS : Nat := 24 * 60 * 60

/-- The root factory node of the hierarchy fixture of the tests. -/
def factoryNode : NetworkNode :=
  ⟨1, "Factory Node", "default@example.com", "Default Country", "Default City",
   "Default St", "1", NodeType.FACTORY, none, 10000⟩

/-- The retail node of the hierarchy fixture, supplied by the factory. -/
def retailNode : NetworkNode :=
  ⟨2, "Retail Node", "default@example.com", "Default Country", "Default City",
   "Default St", "1", NodeType.RETAIL, some 1, 10000⟩

/-- The entrepreneur node of the hierarchy fixture, supplied by the retailer. -/
def entrepreneurNode : NetworkNode :=
  ⟨3, "Entrepreneur Node", "default@example.com", "Default Country", "Default City",
   "Default St", "1", NodeType.ENTREPRENEUR, some 2, 10000⟩

/-- The three-level hierarchy database of the tests. -/
def testDb : DB := [factoryNode, retailNode, entrepreneurNode]

/-- A Product row, owned by exactly one NetworkNode via the supplier id. -/
structure Product where
  id : Nat
  name : String
  model : String
  release_date : String
  supplier : Nat
deriving DecidableEq

/-- An account of the users app; only the activity flag matters for access
control. -/
structure User where
  email : String
  is_active : Bool
deriving DecidableEq

/-- The persisted application state: both tables and the next primary keys. -/
structure AppState where
  nodes : List NetworkNode
  products : List Product
  nextNodeId : Nat
  nextProductId : Nat
deriving DecidableEq

/-- Payload of a NetworkNode creation request; every writable field is
supplied, debt included. Debt is in cents. -/
structure NodeCreatePayload where
  name : String
  email : String
  country : String
  city : String
  street : String
  building_number : String
  supplier : Option Nat
  debt : Nat
  type : NodeType
deriving DecidableEq

/-- Payload of a partial or full NetworkNode update; a none field is left
unchanged, and a present debt field is an attempt to write debt. -/
structure NodeUpdatePayload where
  name : Option String := none
  email : Option String := none
  country : Option String := none
  city : Option String := none
  street : Option String := none
  building_number : Option String := none
  supplier : Option (Option Nat) := none
  type : Option NodeType := none
  debt : Option Nat := none
deriving DecidableEq

/-- Payload of a Product creation request. -/
structure ProductCreatePayload where
  name : String
  model : String
  release_date : String
  supplier : Nat
deriving DecidableEq

/-- The JSON body of a response. -/
inductive ApiData where
  | noData
  | node (n : NetworkNode)
  | nodeList (l : List NetworkNode)
  | product (p : Product)
  | productList (l : List Product)
deriving DecidableEq

/-- An HTTP response: status code, the field names carried by a validation
error body, and the returned data. -/
structure Response where
  status : Nat
  errorFields : List String
  data : ApiData
deriving DecidableEq

/-- The requests of the NetworkNode and Product endpoints. -/
inductive ApiRequest where
  | listNodes (country : Option String)
  | retrieveNode (nid : Nat)
  | createNode (p : NodeCreatePayload)
  | updateNode (nid : Nat) (p : NodeUpdatePayload)
  | deleteNode (nid : Nat)
  | listProducts
  | retrieveProduct (pid : Nat)
  | createProduct (p : ProductCreatePayload)
  | deleteProduct (pid : Nat)
deriving DecidableEq

/-- Modelled from the spec: the missing views.py list endpoint with the
declared country filter of the filtering contract; the results collection
holds exactly the matching rows. -/
def listNodesOp (s : AppState) (c : Option String) : AppState × Response :=
  match c with
  | none => (s, ⟨200, [], ApiData.nodeList s.nodes⟩)
  | some cty =>
    (s, ⟨200, [], ApiData.nodeList (s.nodes.filter (fun n => n.country == cty))⟩)

/-- Modelled from the spec: the missing views.py retrieve endpoint. -/
def retrieveNodeOp (s : AppState) (nid : Nat) : AppState × Response :=
  match findNode s.nodes nid with
  | none => (s, ⟨404, [], ApiData.noData⟩)
  | some n => (s, ⟨200, [], ApiData.node n⟩)

/-- A creation payload's supplier reference is valid when absent or resolving
to a stored node. -/
def supplierValid (s : AppState) (o : Option Nat) : Bool :=
  match o with
  | none => true
  | some sid => (findNode s.nodes sid).isSome

/-- The row persisted by a NetworkNode creation request. -/
def mkNode (s : AppState) (p : NodeCreatePayload) : NetworkNode :=
  ⟨s.nextNodeId, p.name, p.email, p.country, p.city, p.street, p.building_number,
   p.type, p.supplier, p.debt⟩

/-- Modelled from the spec: the missing views.py creation endpoint for
NetworkNode; creation requests may set an initial debt value, and the created
row is persisted by a single write. -/
def createNodeOp (s : AppState) (p : NodeCreatePayload) : AppState × Response :=
  if supplierValid s p.supplier then
    ({ s with nodes := s.nodes ++ [mkNode s p], nextNodeId := s.nextNodeId + 1 },
     ⟨201, [], ApiData.node (mkNode s p)⟩)
  else (s, ⟨400, ["supplier"], ApiData.noData⟩)

/-- Apply the present fields of an update payload to a row; debt is never
applied by an update. -/
def applyNodeUpdate (n : NetworkNode) (p : NodeUpdatePayload) : NetworkNode :=
  { n with
    name := p.name.getD n.name
    email := p.email.getD n.email
    country := p.country.getD n.country
    city := p.city.getD n.city
    street := p.street.getD n.street
    building_number := p.building_number.getD n.building_number
    type := p.type.getD n.type
    supplier := p.supplier.getD n.supplier }

/-- Modelled from the spec: the missing views.py and serializers.py update
endpoint for NetworkNode; any payload carrying debt is rejected with a
validation error naming the debt field, before anything is written. -/
def updateNodeOp (s : AppState) (nid : Nat) (p : NodeUpdatePayload) :
    AppState × Response :=
  match findNode s.nodes nid with
  | none => (s, ⟨404, [], ApiData.noData⟩)
  | some n =>
    if p.debt.isSome then (s, ⟨400, ["debt"], ApiData.noData⟩)
    else
      ({ s with nodes :=
          s.nodes.map (fun m => if m.id == nid then applyNodeUpdate n p else m) },
       ⟨200, [], ApiData.node (applyNodeUpdate n p)⟩)

/-- Modelled from the spec: the missing views.py delete endpoint for
NetworkNode. -/
def deleteNodeOp (s : AppState) (nid : Nat) : AppState × Response :=
  match findNode s.nodes nid with
  | none => (s, ⟨404, [], ApiData.noData⟩)
  | some _ =>
    ({ s with nodes := s.nodes.filter (fun m => m.id != nid) },
     ⟨204, [], ApiData.noData⟩)

/-- Look up a product by its id. -/
def findProduct (ps : List Product) (pid : Nat) : Option Product :=
  ps.find? (fun p => p.id == pid)

/-- Modelled from the spec: the missing views.py product list endpoint. -/
def listProductsOp (s : AppState) : AppState × Response :=
  (s, ⟨200, [], ApiData.productList s.products⟩)

/-- Modelled from the spec: the missing views.py product retrieve endpoint. -/
def retrieveProductOp (s : AppState) (pid : Nat) : AppState × Response :=
  match findProduct s.products pid with
  | none => (s, ⟨404, [], ApiData.noData⟩)
  | some p => (s, ⟨200, [], ApiData.product p⟩)

/-- The row persisted by a Product creation request. -/
def mkProduct (s : AppState) (p : ProductCreatePayload) : Product :=
  ⟨s.nextProductId, p.name, p.model, p.release_date, p.supplier⟩

/-- Modelled from the spec: the missing views.py product creation endpoint;
the supplier reference must resolve to a stored NetworkNode. -/
def createProductOp (s : AppState) (p : ProductCreatePayload) :
    AppState × Response :=
  if (findNode s.nodes p.supplier).isSome then
    ({ s with
        products := s.products ++ [mkProduct s p],
        nextProductId := s.nextProductId + 1 },
     ⟨201, [], ApiData.product (mkProduct s p)⟩)
  else (s, ⟨400, ["supplier"], ApiData.noData⟩)

/-- Modelled from the spec: the missing views.py product delete endpoint. -/
def deleteProductOp (s : AppState) (pid : Nat) : AppState × Response :=
  match findProduct s.products pid with
  | none => (s, ⟨404, [], ApiData.noData⟩)
  | some _ =>
    ({ s with products := s.products.filter (fun m => m.id != pid) },
     ⟨204, [], ApiData.noData⟩)

/-- Dispatch an already-authorized request to its endpoint. -/
def dispatch (s : AppState) (r : ApiRequest) : AppState × Response :=
  match r with
  | .listNodes c => listNodesOp s c
  | .retrieveNode nid => retrieveNodeOp s nid
  | .createNode p => createNodeOp s p
  | .updateNode nid p => updateNodeOp s nid p
  | .deleteNode nid => deleteNodeOp s nid
  | .listProducts => listProductsOp s
  | .retrieveProduct pid => retrieveProductOp s pid
  | .createProduct p => createProductOp s p
  | .deleteProduct pid => deleteProductOp s pid

/-- Modelled from the spec: the access-control gate of the missing
permissions setup; an unauthenticated request is rejected with 401 and an
authenticated-but-inactive one with 403. -/
def authStatus (u : Option User) : Option Nat :=
  match u with
  | none => some 401
  | some usr => if usr.is_active then none else some 403

/-- Modelled from the spec: the full request cycle; the access-control gate
runs before any endpoint touches the state. -/
def handle (s : AppState) (u : Option User) (r : ApiRequest) :
    AppState × Response :=
  match authStatus u with
  | some c => (s, ⟨c, [], ApiData.noData⟩)
  | none => dispatch s r

/-- An active account, as in the tests. -/
def activeUser : User := ⟨"active@example.com", true⟩

/-- An inactive account, as in the tests. -/
def inactiveUser : User := ⟨"inactive@example.com", false⟩

/-- A concrete state holding the three-level hierarchy fixture. -/
def baseState : AppState := ⟨testDb, [], 4, 1⟩

/-- The creation payload of test_create_network_node (debt 50.00). -/
def retailPayload : NodeCreatePayload :=
  ⟨"Retail Node", "retail@example.com", "Canada", "City B", "Broadway", "2",
   some 1, 5000, NodeType.RETAIL⟩

/-- The patch payload of test_update_network_node_debt_denied (debt 200.00). -/
def debtPatch : NodeUpdatePayload :=
  { name := some "Updated Supplier Node", debt := some 20000 }

/-- The product payload of test_create_product. -/
def productPayload : ProductCreatePayload :=
  ⟨"Product A", "Model X", "2024-01-01", 1⟩

/-- Iterating the supplier hop from a dead chain stays dead. -/
theorem chainIter_none (db : DB) : ∀ k, chainIter db k none = none
  | 0 => rfl
  | k+1 => by
    show chainStep db (chainIter db k none) = none
    rw [chainIter_none db k]
    rfl

/-- The supplier hop can also be peeled off at the front of the iteration. -/
theorem chainIter_succ_front (db : DB) (k : Nat) (o : Option NetworkNode) :
    chainIter db (k+1) o = chainIter db k (chainStep db o) := by
  induction k generalizing o with
  | zero => rfl
  | succ k ih =>
    show chainStep db (chainIter db (k+1) o) = chainIter db (k+1) (chainStep db o)
    rw [ih]
    rfl

/-- A successful lookup returns a stored row. -/
theorem findNode_mem (db : DB) (nid : Nat) (n : NetworkNode)
    (h : findNode db nid = some n) : n ∈ db :=
  List.mem_of_find?_eq_some h

/-- Every node reached along a supplier chain from a stored node is stored. -/
theorem chainIter_mem (db : DB) :
    ∀ k (n m : NetworkNode), n ∈ db → chainIter db k (some n) = some m → m ∈ db := by
  intro k
  induction k with
  | zero =>
    intro n m hn h
    cases h
    exact hn
  | succ k ih =>
    intro n m hn h
    rw [chainIter] at h
    cases hck : chainIter db k (some n) with
    | none =>
      rw [hck] at h
      simp [chainStep] at h
    | some a =>
      rw [hck] at h
      have ha := ih n a hn hck
      rw [chainStep] at h
      cases hs : a.supplier with
      | none => rw [hs] at h; cases h
      | some sid => rw [hs] at h; exact findNode_mem db sid m h

/-- A hierarchy level computed with some fuel is preserved by more fuel. -/
theorem hierarchyLevelFuel_mono (db : DB) :
    ∀ f (n : NetworkNode) (l : Nat), hierarchyLevelFuel db f n = some l →
    ∀ g, f ≤ g → hierarchyLevelFuel db g n = some l := by
  intro f
  induction f with
  | zero =>
    intro n l h
    simp [hierarchyLevelFuel] at h
  | succ f ih =>
    intro n l h g hfg
    obtain ⟨g0, rfl⟩ : ∃ g0, g = g0 + 1 := ⟨g - 1, by omega⟩
    have hfg0 : f ≤ g0 := by omega
    cases hs : n.supplier with
    | none =>
      simp only [hierarchyLevelFuel, hs] at h ⊢
      exact h
    | some sid =>
      cases hfind : findNode db sid with
      | none =>
        simp only [hierarchyLevelFuel, hs, hfind] at h
        exact Option.noConfusion h
      | some s =>
        simp only [hierarchyLevelFuel, hs, hfind] at h ⊢
        cases hrec : hierarchyLevelFuel db f s with
        | none =>
          rw [hrec] at h
          exact Option.noConfusion h
        | some l0 =>
          rw [hrec] at h
          rw [ih s l0 hrec g0 hfg0]
          exact h

/-- If the chain reaches a root in j hops then the traversal with more than
j units of fuel returns level j. -/
theorem level_eq_of_chain_root (db : DB) :
    ∀ j (n m : NetworkNode), chainIter db j (some n) = some m →
    m.supplier = none → hierarchyLevelFuel db (j+1) n = some j := by
  intro j
  induction j with
  | zero =>
    intro n m h hm
    cases h
    simp only [hierarchyLevelFuel, hm]
  | succ j ih =>
    intro n m h hm
    rw [chainIter_succ_front] at h
    cases hs : n.supplier with
    | none =>
      simp only [chainStep, hs, chainIter_none] at h
      exact Option.noConfusion h
    | some sid =>
      cases hfind : findNode db sid with
      | none =>
        simp only [chainStep, hs, hfind, chainIter_none] at h
        exact Option.noConfusion h
      | some s =>
        simp only [chainStep, hs, hfind] at h
        have hrec := ih s m h hm
        have hstep : hierarchyLevelFuel db (j+1+1) n =
            (hierarchyLevelFuel db (j+1) s).map (fun l => l + 1) := by
          simp only [hierarchyLevelFuel, hs, hfind]
        rw [hstep, hrec]
        rfl

/-- Pigeonhole: an acyclic chain starting at a stored node dies out within
length-many hops. -/
theorem chain_halts (db : DB) (n : NetworkNode) (hn : n ∈ db)
    (hac : AcyclicChain db n) :
    ∃ k, k ≤ db.length ∧ chainIter db k (some n) = none := by
  by_contra hcon
  push_neg at hcon
  have hsome : ∀ k, k ≤ db.length → ∃ m, chainIter db k (some n) = some m := by
    intro k hk
    cases hchq : chainIter db k (some n) with
    | none => exact absurd hchq (hcon k hk)
    | some m => exact ⟨m, rfl⟩
  classical
  have hinj : Function.Injective
      (fun i : Fin (db.length + 1) => (chainId db n i.val).getD 0) := by
    intro i j hij
    obtain ⟨a, ha⟩ := hsome i.val (Nat.lt_succ_iff.mp i.isLt)
    obtain ⟨b, hb⟩ := hsome j.val (Nat.lt_succ_iff.mp j.isLt)
    have hia : chainId db n i.val = some a.id := by simp [chainId, ha]
    have hjb : chainId db n j.val = some b.id := by simp [chainId, hb]
    have hab : a.id = b.id := by
      simpa [hia, hjb] using hij
    exact Fin.ext (hac i.val (Nat.lt_succ_iff.mp i.isLt) j.val
      (Nat.lt_succ_iff.mp j.isLt) (by rw [hia, hjb, hab]) (by rw [hia]; simp))
  have hmaps : ∀ i : Fin (db.length + 1),
      (chainId db n i.val).getD 0 ∈ (db.map NetworkNode.id).toFinset := by
    intro i
    obtain ⟨a, ha⟩ := hsome i.val (Nat.lt_succ_iff.mp i.isLt)
    have hmem := chainIter_mem db i.val n a hn ha
    simp [chainId, ha]
    exact ⟨a, hmem, rfl⟩
  have hcard : (Finset.univ : Finset (Fin (db.length + 1))).card ≤
      (db.map NetworkNode.id).toFinset.card :=
    Finset.card_le_card_of_injOn _ (fun i _ => hmaps i) hinj.injOn
  have h1 : (Finset.univ : Finset (Fin (db.length + 1))).card = db.length + 1 := by
    simp
  have h2 : (db.map NetworkNode.id).toFinset.card ≤ db.length := by
    calc (db.map NetworkNode.id).toFinset.card ≤ (db.map NetworkNode.id).length :=
          List.toFinset_card_le _
      _ = db.length := List.length_map _ _
  omega

/-- A chain from a stored node that dies out must first pass through a root
node, given that every stored supplier reference resolves. -/
theorem chain_root_exists (db : DB) (n : NetworkNode) (hwf : WellFormed db)
    (hn : n ∈ db) :
    ∀ k, chainIter db k (some n) = none →
    ∃ j m, j < k ∧ chainIter db j (some n) = some m ∧ m.supplier = none := by
  intro k
  induction k with
  | zero =>
    intro h
    cases h
  | succ k ih =>
    intro h
    cases hck : chainIter db k (some n) with
    | none =>
      obtain ⟨j, m, hj, hm, hs⟩ := ih hck
      exact ⟨j, m, Nat.lt_succ_of_lt hj, hm, hs⟩
    | some m =>
      have hmem := chainIter_mem db k n m hn hck
      rw [chainIter, hck] at h
      cases hsup : m.supplier with
      | none => exact ⟨k, m, Nat.lt_succ_self k, hck, hsup⟩
      | some sid =>
        have hok := hwf m hmem
        simp only [nodeFKOk, hsup] at hok
        simp only [chainStep, hsup] at h
        rw [h] at hok
        simp at hok

/-- Termination of the hierarchy traversal: in a well-formed database, the
traversal from a stored node with an acyclic chain yields a level. -/
theorem hierarchy_total (db : DB) (n : NetworkNode) (hwf : WellFormed db)
    (hn : n ∈ db) (hac : AcyclicChain db n) :
    ∃ l, NetworkNode.get_hierarchy_level db n = some l := by
  obtain ⟨k, hk, hnone⟩ := chain_halts db n hn hac
  obtain ⟨j, m, hjk, hcj, hsup⟩ := chain_root_exists db n hwf hn k hnone
  refine ⟨j, ?_⟩
  have hbase := level_eq_of_chain_root db j n m hcj hsup
  exact hierarchyLevelFuel_mono db (j+1) n j hbase (db.length + 1) (by omega)

/-- C1: for every stored NetworkNode with an acyclic supplier chain in a
well-formed database, get_hierarchy_level returns 0 at a node with no
supplier, and the supplier's level plus one when a supplier exists. -/
theorem C1_hierarchy_recurrence (db : DB) (n : NetworkNode)
    (hwf : WellFormed db) (hn : n ∈ db) (hac : AcyclicChain db n) :
    (n.supplier = none → NetworkNode.get_hierarchy_level db n = some 0) ∧
    (∀ sid s, n.supplier = some sid → findNode db sid = some s →
      ∃ l, NetworkNode.get_hierarchy_level db s = some l ∧
        NetworkNode.get_hierarchy_level db n = some (l + 1)) := by
  constructor
  · intro hs
    unfold NetworkNode.get_hierarchy_level
    simp only [hierarchyLevelFuel, hs]
  · intro sid s hs hfind
    obtain ⟨l, hl⟩ := hierarchy_total db n hwf hn hac
    have hstep : hierarchyLevelFuel db (db.length + 1) n =
        (hierarchyLevelFuel db db.length s).map (fun l => l + 1) := by
      simp only [hierarchyLevelFuel, hs, hfind]
    unfold NetworkNode.get_hierarchy_level at hl
    have hl2 := hl
    rw [hstep] at hl
    obtain ⟨l0, hl0, hfa⟩ := Option.map_eq_some'.mp hl
    refine ⟨l0, ?_, ?_⟩
    · exact hierarchyLevelFuel_mono db db.length s l0 hl0 (db.length + 1) (by omega)
    · unfold NetworkNode.get_hierarchy_level
      rw [hl2, ← hfa]

/-- Witness for C1 at the retail node of the test fixture. -/
theorem C1_hierarchy_recurrence_witness :
    (retailNode.supplier = none →
      NetworkNode.get_hierarchy_level testDb retailNode = some 0) ∧
    (∀ sid s, retailNode.supplier = some sid → findNode testDb sid = some s →
      ∃ l, NetworkNode.get_hierarchy_level testDb s = some l ∧
        NetworkNode.get_hierarchy_level testDb retailNode = some (l + 1)) :=
  C1_hierarchy_recurrence testDb retailNode (by decide) (by decide) (by decide)

/-- C4: the hierarchy-level traversal terminates on every stored node whose
supplier chain is acyclic, in a well-formed database: the chain of supplier
hops dies out within length-many hops and the computation returns a level. -/
theorem C4_hierarchy_terminates (db : DB) (n : NetworkNode)
    (hwf : WellFormed db) (hn : n ∈ db) (hac : AcyclicChain db n) :
    (∃ k, k ≤ db.length ∧ chainIter db k (some n) = none) ∧
    ∃ l, NetworkNode.get_hierarchy_level db n = some l :=
  ⟨chain_halts db n hn hac, hierarchy_total db n hwf hn hac⟩

/-- Witness for C4 at the entrepreneur node of the test fixture. -/
theorem C4_hierarchy_terminates_witness :
    (∃ k, k ≤ testDb.length ∧ chainIter testDb k (some entrepreneurNode) = none) ∧
    ∃ l, NetworkNode.get_hierarchy_level testDb entrepreneurNode = some l :=
  C4_hierarchy_terminates testDb entrepreneurNode (by decide) (by decide) (by decide)

/-- C10: the string representation of a node is its name followed by the
Russian display name of its type and its computed hierarchy level, and on the
three-level fixture the levels shown are 0, 1 and 2. -/
theorem C10_str_representation :
    (∀ (db : DB) (n : NetworkNode) (l : Nat),
        NetworkNode.get_hierarchy_level db n = some l →
        NetworkNode.strRepr db n =
          some (n.name ++ " (" ++ n.type.display ++ ", Уровень: " ++
            toString l ++ ")")) ∧
    NetworkNode.strRepr testDb factoryNode =
      some "Factory Node (Завод, Уровень: 0)" ∧
    NetworkNode.strRepr testDb retailNode =
      some "Retail Node (Розничная сеть, Уровень: 1)" ∧
    NetworkNode.strRepr testDb entrepreneurNode =
      some "Entrepreneur Node (Индивидуальный предприниматель, Уровень: 2)" := by
  refine ⟨?_, by decide, by decide, by decide⟩
  intro db n l hl
  simp [NetworkNode.strRepr, hl]

/-- Witness for the universally quantified part of C10 at the factory node. -/
theorem C10_str_representation_witness :
    NetworkNode.strRepr testDb factoryNode =
      some (factoryNode.name ++ " (" ++ factoryNode.type.display ++
        ", Уровень: " ++ toString 0 ++ ")") :=
  C10_str_representation.1 testDb factoryNode 0 (by decide)

/-- C9: the configured bearer-token lifetimes are ordered as specified: the
access token (10 minutes) is strictly shorter lived than the refresh token
(1 day). -/
theorem C9_token_lifetimes :
    ACCESS_TOKEN_LIFETIME_SECONDS < REFRESH_TOKEN_LIFETIME_SECONDS ∧
    ACCESS_TOKEN_LIFETIME_SECONDS = 10 * 60 ∧
    REFRESH_TOKEN_LIFETIME_SECONDS = 24 * 60 * 60 := by
  refine ⟨by decide, rfl, rfl⟩

/-- C3: an unauthenticated request gets 401 and an authenticated-but-inactive
one gets 403 on every endpoint; in both cases the state is unchanged and the
response does not depend on the stored data. -/
theorem C3_access_control (s s2 : AppState) (u : Option User) (r : ApiRequest) :
    (u = none → (handle s u r).2.status = 401) ∧
    (∀ usr, u = some usr → usr.is_active = false →
      (handle s u r).2.status = 403) ∧
    ((u = none ∨ ∃ usr, u = some usr ∧ usr.is_active = false) →
      (handle s u r).1 = s ∧ (handle s u r).2 = (handle s2 u r).2) := by
  refine ⟨?_, ?_, ?_⟩
  · intro hu
    subst hu
    rfl
  · intro usr hu ha
    subst hu
    simp [handle, authStatus, ha]
  · intro hcase
    cases hcase with
    | inl hu =>
      subst hu
      exact ⟨rfl, rfl⟩
    | inr hex =>
      obtain ⟨usr, hu, ha⟩ := hex
      subst hu
      constructor
      · simp [handle, authStatus, ha]
      · simp [handle, authStatus, ha]

/-- Witness for C3: an unauthenticated list request against the fixture
state is rejected with 401 and writes nothing. -/
theorem C3_access_control_witness :
    (handle baseState none (ApiRequest.listNodes none)).2.status = 401 ∧
    (handle baseState none (ApiRequest.listNodes none)).1 = baseState :=
  ⟨(C3_access_control baseState baseState none (ApiRequest.listNodes none)).1 rfl,
   ((C3_access_control baseState baseState none
      (ApiRequest.listNodes none)).2.2 (Or.inl rfl)).1⟩

/-- C2: any update (full or partial) whose payload sets debt is rejected with
400 naming the debt field and without touching the state, whatever other
fields it changes; creation requests with a valid supplier reference may
carry a debt value and succeed. -/
theorem C2_debt_update_denied (s : AppState) (usr : User) (nid : Nat)
    (p : NodeUpdatePayload) (d : Nat) (ha : usr.is_active = true)
    (hn : (findNode s.nodes nid).isSome = true) (hd : p.debt = some d) :
    (handle s (some usr) (ApiRequest.updateNode nid p)).2.status = 400 ∧
    "debt" ∈ (handle s (some usr) (ApiRequest.updateNode nid p)).2.errorFields ∧
    (handle s (some usr) (ApiRequest.updateNode nid p)).1 = s ∧
    ∀ q : NodeCreatePayload, supplierValid s q.supplier = true →
      (handle s (some usr) (ApiRequest.createNode q)).2.status = 201 := by
  obtain ⟨n, hfind⟩ := Option.isSome_iff_exists.mp hn
  have hds : p.debt.isSome = true := by rw [hd]; rfl
  refine ⟨?_, ?_, ?_, ?_⟩
  · simp [handle, authStatus, ha, dispatch, updateNodeOp, hfind, hds]
  · simp [handle, authStatus, ha, dispatch, updateNodeOp, hfind, hds]
  · simp [handle, authStatus, ha, dispatch, updateNodeOp, hfind, hds]
  · intro q hq
    simp [handle, authStatus, ha, dispatch, createNodeOp, hq]

/-- Witness for C2: the debt patch of the tests against the fixture state. -/
theorem C2_debt_update_denied_witness :
    (handle baseState (some activeUser) (ApiRequest.updateNode 1 debtPatch)).2.status = 400 ∧
    "debt" ∈ (handle baseState (some activeUser)
      (ApiRequest.updateNode 1 debtPatch)).2.errorFields ∧
    (handle baseState (some activeUser) (ApiRequest.updateNode 1 debtPatch)).1 = baseState ∧
    ∀ q : NodeCreatePayload, supplierValid baseState q.supplier = true →
      (handle baseState (some activeUser) (ApiRequest.createNode q)).2.status = 201 :=
  C2_debt_update_denied baseState activeUser 1 debtPatch 20000 rfl (by decide) rfl

/-- C6: a creation request with a valid supplier reference succeeds with 201,
persists exactly the row built from the payload (debt included) by one
append, and echoes that row. -/
theorem C6_create_persists_debt (s : AppState) (usr : User)
    (p : NodeCreatePayload) (ha : usr.is_active = true)
    (hv : supplierValid s p.supplier = true) :
    (handle s (some usr) (ApiRequest.createNode p)).2.status = 201 ∧
    (handle s (some usr) (ApiRequest.createNode p)).1.nodes =
      s.nodes ++ [mkNode s p] ∧
    (mkNode s p).debt = p.debt ∧
    (handle s (some usr) (ApiRequest.createNode p)).2.data =
      ApiData.node (mkNode s p) := by
  refine ⟨?_, ?_, rfl, ?_⟩ <;>
    simp [handle, authStatus, ha, dispatch, createNodeOp, hv]

/-- Witness for C6: the creation payload of test_create_network_node against
the fixture state. -/
theorem C6_create_persists_debt_witness :
    (handle baseState (some activeUser) (ApiRequest.createNode retailPayload)).2.status = 201 ∧
    (handle baseState (some activeUser) (ApiRequest.createNode retailPayload)).1.nodes =
      baseState.nodes ++ [mkNode baseState retailPayload] ∧
    (mkNode baseState retailPayload).debt = retailPayload.debt ∧
    (handle baseState (some activeUser) (ApiRequest.createNode retailPayload)).2.data =
      ApiData.node (mkNode baseState retailPayload) :=
  C6_create_persists_debt baseState activeUser retailPayload rfl (by decide)

/-- C7: listing nodes filtered by a country returns 200 and a results list
holding exactly the stored nodes whose country equals the filter value. -/
theorem C7_filter_by_country (s : AppState) (usr : User) (c : String)
    (ha : usr.is_active = true) :
    (handle s (some usr) (ApiRequest.listNodes (some c))).2.status = 200 ∧
    ∃ l, (handle s (some usr) (ApiRequest.listNodes (some c))).2.data =
        ApiData.nodeList l ∧
      ∀ n, n ∈ l ↔ (n ∈ s.nodes ∧ n.country = c) := by
  refine ⟨by simp [handle, authStatus, ha, dispatch, listNodesOp],
    s.nodes.filter (fun n => n.country == c),
    by simp [handle, authStatus, ha, dispatch, listNodesOp], ?_⟩
  intro n
  simp [List.mem_filter]

/-- Witness for C7: filtering the fixture state by the country of its rows. -/
theorem C7_filter_by_country_witness :
    (handle baseState (some activeUser)
      (ApiRequest.listNodes (some "USA"))).2.status = 200 ∧
    ∃ l, (handle baseState (some activeUser)
        (ApiRequest.listNodes (some "USA"))).2.data = ApiData.nodeList l ∧
      ∀ n, n ∈ l ↔ (n ∈ baseState.nodes ∧ n.country = "USA") :=
  C7_filter_by_country baseState activeUser "USA" rfl

/-- C8: creating a product whose supplier reference resolves to a stored
node succeeds with 201 and echoes the provided name. -/
theorem C8_create_product (s : AppState) (usr : User)
    (p : ProductCreatePayload) (ha : usr.is_active = true)
    (hs : (findNode s.nodes p.supplier).isSome = true) :
    (handle s (some usr) (ApiRequest.createProduct p)).2.status = 201 ∧
    ∃ prod, (handle s (some usr) (ApiRequest.createProduct p)).2.data =
        ApiData.product prod ∧ prod.name = p.name := by
  refine ⟨by simp [handle, authStatus, ha, dispatch, createProductOp, hs],
    mkProduct s p,
    by simp [handle, authStatus, ha, dispatch, createProductOp, hs], rfl⟩

/-- Witness for C8: the product payload of test_create_product against the
fixture state. -/
theorem C8_create_product_witness :
    (handle baseState (some activeUser)
      (ApiRequest.createProduct productPayload)).2.status = 201 ∧
    ∃ prod, (handle baseState (some activeUser)
        (ApiRequest.createProduct productPayload)).2.data =
        ApiData.product prod ∧ prod.name = productPayload.name :=
  C8_create_product baseState activeUser productPayload rfl (by decide)

/-- A failed node creation leaves the state unchanged. -/
theorem createNodeOp_atomic (s : AppState) (p : NodeCreatePayload)
    (h : 400 ≤ (createNodeOp s p).2.status) : (createNodeOp s p).1 = s := by
  by_cases hv : supplierValid s p.supplier
  · simp [createNodeOp, hv] at h
  · simp [createNodeOp, hv]

/-- A failed node update leaves the state unchanged. -/
theorem updateNodeOp_atomic (s : AppState) (nid : Nat) (p : NodeUpdatePayload)
    (h : 400 ≤ (updateNodeOp s nid p).2.status) : (updateNodeOp s nid p).1 = s := by
  cases hf : findNode s.nodes nid with
  | none => simp [updateNodeOp, hf]
  | some n =>
    by_cases hd : p.debt.isSome
    · simp [updateNodeOp, hf, hd]
    · simp [updateNodeOp, hf, hd] at h

/-- A failed node retrieval leaves the state unchanged. -/
theorem retrieveNodeOp_atomic (s : AppState) (nid : Nat)
    (h : 400 ≤ (retrieveNodeOp s nid).2.status) : (retrieveNodeOp s nid).1 = s := by
  cases hf : findNode s.nodes nid with
  | none => simp [retrieveNodeOp, hf]
  | some n => simp [retrieveNodeOp, hf] at h

/-- A failed node deletion leaves the state unchanged. -/
theorem deleteNodeOp_atomic (s : AppState) (nid : Nat)
    (h : 400 ≤ (deleteNodeOp s nid).2.status) : (deleteNodeOp s nid).1 = s := by
  cases hf : findNode s.nodes nid with
  | none => simp [deleteNodeOp, hf]
  | some n => simp [deleteNodeOp, hf] at h

/-- A failed product creation leaves the state unchanged. -/
theorem createProductOp_atomic (s : AppState) (p : ProductCreatePayload)
    (h : 400 ≤ (createProductOp s p).2.status) : (createProductOp s p).1 = s := by
  by_cases hv : (findNode s.nodes p.supplier).isSome
  · simp [createProductOp, hv] at h
  · simp [createProductOp, hv]

/-- A failed product retrieval leaves the state unchanged. -/
theorem retrieveProductOp_atomic (s : AppState) (pid : Nat)
    (h : 400 ≤ (retrieveProductOp s pid).2.status) :
    (retrieveProductOp s pid).1 = s := by
  cases hf : findProduct s.products pid with
  | none => simp [retrieveProductOp, hf]
  | some p => simp [retrieveProductOp, hf] at h

/-- A failed product deletion leaves the state unchanged. -/
theorem deleteProductOp_atomic (s : AppState) (pid : Nat)
    (h : 400 ≤ (deleteProductOp s pid).2.status) :
    (deleteProductOp s pid).1 = s := by
  cases hf : findProduct s.products pid with
  | none => simp [deleteProductOp, hf]
  | some p => simp [deleteProductOp, hf] at h

/-- C5: every request is a single atomic write: whenever any request over any
endpoint fails (status 400 or above), the persisted state is exactly the
state before the request; no field is partially modified. -/
theorem C5_atomic_failure (s : AppState) (u : Option User) (r : ApiRequest)
    (h : 400 ≤ (handle s u r).2.status) : (handle s u r).1 = s := by
  cases u with
  | none => rfl
  | some usr =>
    by_cases ha : usr.is_active
    · have hdis : handle s (some usr) r = dispatch s r := by
        simp [handle, authStatus, ha]
      rw [hdis] at h ⊢
      cases r with
      | listNodes c =>
        cases c with
        | none => simp [dispatch, listNodesOp] at h
        | some cty => simp [dispatch, listNodesOp] at h
      | retrieveNode nid => exact retrieveNodeOp_atomic s nid h
      | createNode p => exact createNodeOp_atomic s p h
      | updateNode nid p => exact updateNodeOp_atomic s nid p h
      | deleteNode nid => exact deleteNodeOp_atomic s nid h
      | listProducts => simp [dispatch, listProductsOp] at h
      | retrieveProduct pid => exact retrieveProductOp_atomic s pid h
      | createProduct p => exact createProductOp_atomic s p h
      | deleteProduct pid => exact deleteProductOp_atomic s pid h
    · simp [handle, authStatus, ha]

/-- Witness for C5: the rejected debt patch of the tests leaves the fixture
state untouched. -/
theorem C5_atomic_failure_witness :
    400 ≤ (handle baseState (some activeUser)
      (ApiRequest.updateNode 1 debtPatch)).2.status ∧
    (handle baseState (some activeUser) (ApiRequest.updateNode 1 debtPatch)).1 =
      baseState :=
  ⟨by decide,
   C5_atomic_failure baseState (some activeUser)
     (ApiRequest.updateNode 1 debtPatch) (by decide)⟩
